import Mathlib

/-!
Shallow embedding of the authentication / transaction core of the
secure-banking-portal repository (Node/Express + Mongoose), and proofs of
the specification's claims about it.

Conventions of the embedding:
* machine time is `Nat` (milliseconds since epoch, except the inactivity
  monitor which uses minutes, matching the constants in the client code);
* the Mongo document store is a `List` of records; `findOne` / `findById`
  become `List.find?`, a per-document `save` becomes a positional `map`;
* `bcrypt.hash` at the fixed cost factor is modelled as an abstract
  function `bc : String → String` (salting is explicit in the source:
  the custom salt is concatenated to the password before hashing), and
  `bcrypt.compare s h` as `bc s == h`;
* randomness (`crypto.randomBytes` salts) is passed in as an argument;
* `async` / thrown errors are modelled with `Except`.
-/

namespace Banking

/-- Model of JS `s.trim()`: whitespace stripped from both ends (written
over the character list so that it evaluates by kernel reduction). -/
def jsTrim (s : String) : String :=
  String.mk (((s.toList.dropWhile Char.isWhitespace).reverse.dropWhile
    Char.isWhitespace).reverse)

/-! ## Transaction ledger (server/routes/employeeTransactions.js, models/Transaction.js) -/

/-- The `status` field of a Transaction document: enum pending/verified/submitted. -/
inductive TxStatus where
  | pending
  | verified
  | submitted
deriving DecidableEq, Repr

/-- Transaction document (models/Transaction.js): owning user, payment
fields, and the verification lifecycle fields. -/
structure Transaction where
  id : Nat
  userId : Nat
  amount : Nat
  currency : String
  provider : String
  swiftCode : String
  beneficiaryAccount : String
  date : Nat
  status : TxStatus := .pending
  verifiedBy : Option Nat := none
  verifiedAt : Option Nat := none
  submittedToSwift : Bool := false
  submittedAt : Option Nat := none
  employeeNotes : Option String := none
deriving DecidableEq, Repr

/-- Errors raised by the verify route: 404 when the id resolves to no
document, else the 400 `Transaction is already ${status}` message. -/
inductive VerifyError where
  | notFound
  | alreadyStatus (s : TxStatus)
deriving DecidableEq, Repr

/-- Errors raised by the single-submit route: 404 not found, the 400
`Transaction must be verified before submitting to SWIFT` message, or the
400 `Transaction already submitted to SWIFT` message. -/
inductive SubmitError where
  | notFound
  | mustBeVerified
  | alreadySubmittedToSwift
deriving DecidableEq, Repr

/-- Errors raised by the bulk-submit route. -/
inductive BulkError where
  | idsRequired
  | noEligible
deriving DecidableEq, Repr

/-- Lookup `Transaction.findById` over the document store. -/
def findTx (store : List Transaction) (id : Nat) : Option Transaction :=
  store.find? (fun t => t.id == id)

/-- Writing one saved document back into the store (mongoose `save`). -/
def saveTx (store : List Transaction) (tx : Transaction) : List Transaction :=
  store.map (fun t => if t.id == tx.id then tx else t)

/-- The in-memory mutation done by PATCH /:id/verify once the transaction
has been found and its status checked: status→verified, `verifiedBy` and
`verifiedAt` stamped, optional notes trimmed and truncated to 500 chars
(JS `if (notes)` skips the update for an absent or empty string). -/
def applyVerify (empId now : Nat) (notes : Option String) (tx : Transaction) : Transaction :=
  let tx := { tx with status := .verified, verifiedBy := some empId, verifiedAt := some now }
  match notes with
  | some n => if n = "" then tx else { tx with employeeNotes := some ((jsTrim n).take 500) }
  | none => tx

/-- PATCH /:id/verify (employeeTransactions.js): find the transaction,
fail with 404 if absent, fail with `Transaction is already ${status}` if
status ≠ pending (store untouched), else save the verified document. -/
def verifyRoute (empId now : Nat) (notes : Option String) (id : Nat)
    (store : List Transaction) : Except VerifyError Transaction × List Transaction :=
  match findTx store id with
  | none => (.error .notFound, store)
  | some tx =>
    if tx.status ≠ .pending then
      (.error (.alreadyStatus tx.status), store)
    else
      let tx' := applyVerify empId now notes tx
      (.ok tx', saveTx store tx')

/-- The in-memory mutation done by PATCH /:id/submit once the checks pass:
status→submitted, `submittedToSwift` set, `submittedAt` stamped. -/
def applySubmit (now : Nat) (tx : Transaction) : Transaction :=
  { tx with status := .submitted, submittedToSwift := true, submittedAt := some now }

/-- PATCH /:id/submit (employeeTransactions.js): 404 if absent; the
`must be verified` error if status ≠ verified; the `already submitted`
error if `submittedToSwift` is already set; else save the submitted
document. -/
def submitRoute (now : Nat) (id : Nat)
    (store : List Transaction) : Except SubmitError Transaction × List Transaction :=
  match findTx store id with
  | none => (.error .notFound, store)
  | some tx =>
    if tx.status ≠ .verified then
      (.error .mustBeVerified, store)
    else if tx.submittedToSwift then
      (.error .alreadySubmittedToSwift, store)
    else
      let tx' := applySubmit now tx
      (.ok tx', saveTx store tx')

/-- POST /submit-bulk (employeeTransactions.js): reject an empty id list;
select the requested documents whose status is `verified`; if none, fail
with `No verified transactions found to submit` leaving the store
untouched; else submit each selected document and report how many. -/
def submitBulkRoute (now : Nat) (transactionIds : List Nat)
    (store : List Transaction) : Except BulkError Nat × List Transaction :=
  if transactionIds.isEmpty then (.error .idsRequired, store)
  else
    let eligible := store.filter
      (fun t => transactionIds.contains t.id && t.status == .verified)
    if eligible.isEmpty then (.error .noEligible, store)
    else
      (.ok eligible.length,
       store.map (fun t =>
         if transactionIds.contains t.id && t.status == .verified then
           applySubmit now t
         else t))

/-- Rank of a status in the forward-only lifecycle. -/
def statusRank : TxStatus → Nat
  | .pending => 0
  | .verified => 1
  | .submitted => 2

/-! ## String helpers modelling the JS string operations used by
passwordSecurity.js (`String.prototype.includes`, `toLowerCase`,
regex character-class tests). -/

/-- Test `isPre needle hay`: the first list starts the second
(JS `startsWith`, used to build substring search). -/
def isPre : List Char → List Char → Bool
  | [], _ => true
  | _ :: _, [] => false
  | a :: as, b :: bs => a == b && isPre as bs

/-- Test `hasSub needle hay`: the first list occurs contiguously in the second
(JS `String.prototype.includes` over code points). -/
def hasSub (needle : List Char) : List Char → Bool
  | [] => isPre needle []
  | c :: t => isPre needle (c :: t) || hasSub needle t

/-- Model of JS `hay.includes(needle)`. -/
def strIncludes (hay needle : String) : Bool :=
  hasSub needle.toList hay.toList

/-- Model of JS `s.toLowerCase()` (ASCII, which is all the source compares). -/
def lowerStr (s : String) : String :=
  String.mk (s.toList.map Char.toLower)

/-! ## Credential store (server/utils/passwordSecurity.js) -/

/-- PASSWORD_CONFIG.MAX_LOGIN_ATTEMPTS. -/
def MAX_LOGIN_ATTEMPTS : Nat := 5

/-- PASSWORD_CONFIG.LOCKOUT_TIME (30 minutes in milliseconds). -/
def LOCKOUT_TIME : Nat := 30 * 60 * 1000

/-- PASSWORD_CONFIG.MIN_LENGTH. -/
def MIN_LENGTH : Nat := 8

/-- Result of `hashPassword`: the bcrypt hash of password+customSalt and
the custom salt itself (algorithm/cost/timestamp metadata omitted). -/
structure HashData where
  hash : String
  customSalt : String
deriving DecidableEq, Repr

/-- Source `hashPassword(password)`: the freshly generated random `customSalt`
(crypto.randomBytes) is passed in explicitly; the salted password is
hashed by the abstract bcrypt function `bc`. -/
def hashPassword (bc : String → String) (customSalt password : String) : HashData :=
  { hash := bc (password ++ customSalt), customSalt := customSalt }

/-- Source `verifyPassword(password, storedHash, customSalt)`: returns false
outright when any argument is falsy (the empty string), else recombines
the password with the salt and compares via bcrypt. -/
def verifyPassword (bc : String → String)
    (password storedHash customSalt : String) : Bool :=
  if password = "" || storedHash = "" || customSalt = "" then false
  else bc (password ++ customSalt) == storedHash

/-- The block-list in `isCommonPassword`. -/
def commonPasswords : List String :=
  ["password", "password123", "123456", "123456789", "qwerty",
   "abc123", "password1", "admin", "letmein", "welcome",
   "monkey", "dragon", "master", "shadow", "login",
   "superman", "michael", "batman", "trustno1", "hello"]

/-- Source `isCommonPassword(password)`: some block-list entry occurs in the
lowercased password, or the lowercased password occurs in the entry. -/
def isCommonPassword (password : String) : Bool :=
  commonPasswords.any (fun common =>
    strIncludes (lowerStr password) common || strIncludes common (lowerStr password))

/-- Four consecutive digit characters (the `/\d{4}/` pattern). -/
def hasFourDigits : List Char → Bool
  | a :: b :: c :: d :: rest =>
    (a.isDigit && b.isDigit && c.isDigit && d.isDigit)
      || hasFourDigits (b :: c :: d :: rest)
  | _ => false

/-- A digit pair, a slash, and a digit pair in a row: exactly the strings
matched by the `/\d{2,4}\/\d{2,4}/` date pattern. -/
def hasDateLike : List Char → Bool
  | a :: b :: s :: c :: d :: rest =>
    (a.isDigit && b.isDigit && s == '/' && c.isDigit && d.isDigit)
      || hasDateLike (b :: s :: c :: d :: rest)
  | _ => false

/-- The case-insensitive word patterns of `containsPersonalInfo`. -/
def personalWords : List String :=
  ["birthday", "name", "address", "phone", "email"]

/-- Source `containsPersonalInfo(password)`: a personal word (case-insensitive),
a four-digit year, or a date-like digits/slash/digits run. -/
def containsPersonalInfo (password : String) : Bool :=
  personalWords.any (fun w => strIncludes (lowerStr password) w)
    || hasFourDigits password.toList
    || hasDateLike password.toList

/-- The three scanned sequences in `hasSequentialChars`. -/
def seqStrings : List String :=
  ["abcdefghijklmnopqrstuvwxyz", "qwertyuiopasdfghjklzxcvbnm", "0123456789"]

/-- All contiguous windows of length three of a list. -/
def windows3 : List Char → List (List Char)
  | a :: b :: c :: rest => [a, b, c] :: windows3 (b :: c :: rest)
  | _ => []

/-- Source `hasSequentialChars(password)`: some three-character window of one of
the sequences, forwards or reversed, occurs in the lowercased password. -/
def hasSequentialChars (password : String) : Bool :=
  let lower := (lowerStr password).toList
  seqStrings.any (fun seq =>
    (windows3 seq.toList).any (fun w => hasSub w lower || hasSub w.reverse lower))

/-- The eight boolean requirements computed by `analyzePasswordStrength`. -/
structure Requirements where
  length : Bool
  uppercase : Bool
  lowercase : Bool
  numbers : Bool
  specialChars : Bool
  noCommon : Bool
  noPersonalInfo : Bool
  noSequential : Bool
deriving DecidableEq, Repr

/-- Result of `analyzePasswordStrength` (the feedback strings omitted). -/
structure StrengthAnalysis where
  score : ℚ
  isStrong : Bool
  requirements : Requirements
deriving DecidableEq, Repr

/-- The requirements record of `analyzePasswordStrength(password)`:
length ≥ 8, an ASCII upper, lower, digit, one of `@$!%*?&`, not common,
no personal-info pattern, no sequential run. -/
def strengthRequirements (password : String) : Requirements :=
  { length := decide (password.length ≥ MIN_LENGTH)
    uppercase := password.toList.any Char.isUpper
    lowercase := password.toList.any Char.isLower
    numbers := password.toList.any Char.isDigit
    specialChars := password.toList.any (fun c => "@$!%*?&".toList.contains c)
    noCommon := !isCommonPassword password
    noPersonalInfo := !containsPersonalInfo password
    noSequential := !hasSequentialChars password }

/-- How many of the eight requirements hold. -/
def Requirements.count (r : Requirements) : Nat :=
  [r.length, r.uppercase, r.lowercase, r.numbers, r.specialChars,
   r.noCommon, r.noPersonalInfo, r.noSequential].count true

/-- Source `analyzePasswordStrength(password)`: each satisfied requirement adds
12.5 to the score; `isStrong` iff the score reaches 100. -/
def analyzePasswordStrength (password : String) : StrengthAnalysis :=
  let reqs := strengthRequirements password
  let score : ℚ := (25 / 2 : ℚ) * reqs.count
  { score := score, isStrong := decide (score ≥ 100), requirements := reqs }

/-! ## Password history (passwordSecurity.js checkPasswordHistory) -/

/-- One stored `passwordHistory` entry (hash + its own custom salt). -/
structure HistEntry where
  hash : String
  customSalt : String
deriving DecidableEq, Repr

/-- The slice of the User document `checkPasswordHistory` selects:
`passwordHistory` is `none` when the field is absent on the document. -/
structure HistUser where
  passwordHistory : Option (List HistEntry)
deriving DecidableEq, Repr

/-- Source `checkPasswordHistory(userId, newPassword)`: the `findById` lookup is
passed in as an `Except` (the catch-all returns false on a thrown error);
false when the user or the history field is missing; else true exactly
when some historical hash+salt pair verifies the new password. -/
def checkPasswordHistory (bc : String → String)
    (lookup : Except String (Option HistUser)) (newPassword : String) : Bool :=
  match lookup with
  | .error _ => false
  | .ok none => false
  | .ok (some user) =>
    match user.passwordHistory with
    | none => false
    | some history =>
      history.any (fun h => verifyPassword bc newPassword h.hash h.customSalt)

/-! ## Customer principal and lockout policy (models/User.js,
passwordSecurity.js handleFailedLogin / isAccountLocked /
resetFailedAttempts) -/

/-- Customer (User) document: the fields the login/lockout flow touches. -/
structure CUser where
  id : Nat
  username : String
  accountNumber : String
  isActive : Bool
  passwordHash : String
  passwordSalt : String
  loginAttempts : Nat := 0
  lockoutUntil : Option Nat := none
  lastFailedLogin : Option Nat := none
  lastSuccessfulLogin : Option Nat := none
  lastLoginDate : Option Nat := none
deriving DecidableEq, Repr

/-- Return shape of `isAccountLocked`. -/
structure LockStatus where
  locked : Bool
  unlockTime : Option Nat := none
  attemptsRemaining : Nat := 0
deriving DecidableEq, Repr

/-- Source `isAccountLocked(userId)` on a found user: reports a live lock while
`lockoutUntil > now`; if the lockout has expired it unsets both lockout
fields on the document; also returns the (possibly updated) document. -/
def isAccountLocked (now : Nat) (u : CUser) : LockStatus × CUser :=
  match u.lockoutUntil with
  | some t =>
    if now < t then
      ({ locked := true, unlockTime := some t, attemptsRemaining := 0 }, u)
    else
      ({ locked := false,
         attemptsRemaining := MAX_LOGIN_ATTEMPTS - u.loginAttempts },
       { u with lockoutUntil := none, loginAttempts := 0 })
  | none =>
    ({ locked := false,
       attemptsRemaining := MAX_LOGIN_ATTEMPTS - u.loginAttempts }, u)

/-- Return shape of `handleFailedLogin`. -/
structure AttemptInfo where
  attemptsRemaining : Nat
  lockoutUntil : Option Nat
deriving DecidableEq, Repr

/-- Source `handleFailedLogin(userId)` on a found user: reset the counter if a
previous lockout has passed, increment it, stamp `lastFailedLogin`, and
lock for LOCKOUT_TIME when the counter reaches MAX_LOGIN_ATTEMPTS. -/
def handleFailedLogin (now : Nat) (u : CUser) : AttemptInfo × CUser :=
  let u :=
    match u.lockoutUntil with
    | some t => if t < now then { u with loginAttempts := 0, lockoutUntil := none } else u
    | none => u
  let u := { u with loginAttempts := u.loginAttempts + 1, lastFailedLogin := some now }
  let u :=
    if u.loginAttempts ≥ MAX_LOGIN_ATTEMPTS then
      { u with lockoutUntil := some (now + LOCKOUT_TIME) }
    else u
  ({ attemptsRemaining := MAX_LOGIN_ATTEMPTS - u.loginAttempts,
     lockoutUntil := u.lockoutUntil }, u)

/-- Source `resetFailedAttempts(userId)`: unset the attempt/lockout fields and
stamp the successful login. -/
def resetFailedAttempts (now : Nat) (u : CUser) : CUser :=
  { u with loginAttempts := 0, lockoutUntil := none,
           lastFailedLogin := none, lastSuccessfulLogin := some now }

/-! ## Customer auth routes (server/routes/auth.js) -/

/-- Responses of POST /login: the generic 401 on an unknown/inactive
user, the 423 locked response carrying the unlock time, the generic 401
on a wrong password carrying the remaining-attempt count, or success. -/
inductive LoginResult where
  | invalidUser
  | locked (unlockTime : Option Nat)
  | invalidPassword (attemptsRemaining : Option Nat)
  | success (userId : Nat)
deriving DecidableEq, Repr

/-- Query `User.findOne({username, accountNumber, isActive: true})`. -/
def findCustomer (db : List CUser) (username accountNumber : String) : Option CUser :=
  db.find? (fun u => u.username == username && u.accountNumber == accountNumber && u.isActive)

/-- Writing one saved customer document back into the store. -/
def saveCUser (db : List CUser) (u : CUser) : List CUser :=
  db.map (fun x => if x.id == u.id then u else x)

/-- POST /login (auth.js): find the active user, refuse with the 423
locked response while a lock is live (before any password verification),
on a wrong password record the failed attempt, on success reset the
counters and stamp the login date. -/
def customerLogin (bc : String → String) (now : Nat) (db : List CUser)
    (username accountNumber password : String) : LoginResult × List CUser :=
  match findCustomer db username accountNumber with
  | none => (.invalidUser, db)
  | some user =>
    let (lockStatus, u1) := isAccountLocked now user
    let db1 := saveCUser db u1
    if lockStatus.locked then
      (.locked lockStatus.unlockTime, db)
    else if verifyPassword bc password user.passwordHash user.passwordSalt then
      let u2 := resetFailedAttempts now u1
      let u3 := { u2 with lastLoginDate := some now }
      (.success user.id, saveCUser db1 u3)
    else
      let (info, u2) := handleFailedLogin now u1
      (.invalidPassword (some info.attemptsRemaining), saveCUser db1 u2)

/-- Responses of POST /register relevant to the strength gate. -/
inductive RegisterResult where
  | duplicate
  | weakPassword
  | registered
deriving DecidableEq, Repr

/-- POST /register (auth.js): after the duplicate check, the password is
rejected with the 400 `Weak password` response unless
`analyzePasswordStrength(password).isStrong`. -/
def registerDecision (duplicateExists : Bool) (password : String) : RegisterResult :=
  if duplicateExists then .duplicate
  else if !(analyzePasswordStrength password).isStrong then .weakPassword
  else .registered

/-- Responses of POST /change-password. -/
inductive ChangePasswordResult where
  | wrongCurrent
  | weakPassword
  | reused
  | changed
deriving DecidableEq, Repr

/-- POST /change-password (auth.js): verify the current password, gate on
strength, then gate on `checkPasswordHistory`, else change succeeds. -/
def changePasswordDecision (bc : String → String) (u : CUser)
    (historyLookup : Except String (Option HistUser))
    (currentPassword newPassword : String) : ChangePasswordResult :=
  if !verifyPassword bc currentPassword u.passwordHash u.passwordSalt then .wrongCurrent
  else if !(analyzePasswordStrength newPassword).isStrong then .weakPassword
  else if checkPasswordHistory bc historyLookup newPassword then .reused
  else .changed

/-! ## Employee principal and login (models/Employee.js,
server/routes/employeeAuth.js) -/

/-- Employee document: credential and activity fields plus the declared
attempt-tracking fields `loginAttempts` / `lockUntil`. -/
structure Employee where
  employeeId : String
  username : String
  fullName : String
  passwordHash : String
  passwordSalt : String
  role : String := "employee"
  department : String := "International Payments"
  isActive : Bool := true
  loginAttempts : Nat := 0
  lockUntil : Option Nat := none
  lastLoginDate : Option Nat := none
deriving DecidableEq, Repr

/-- Responses of the employee POST /login. -/
inductive EmpLoginResult where
  | missingFields
  | invalidCredentials
  | success (employeeId : String)
deriving DecidableEq, Repr

/-- Query `Employee.findOne({username: username.trim(), isActive: true})`. -/
def findEmployee (db : List Employee) (username : String) : Option Employee :=
  db.find? (fun e => e.username == jsTrim username && e.isActive)

/-- Writing one saved employee document back into the store. -/
def saveEmployee (db : List Employee) (e : Employee) : List Employee :=
  db.map (fun x => if x.employeeId == e.employeeId then e else x)

/-- POST /login (employeeAuth.js): 400 on a missing field; find the
active employee by trimmed username, 401 `Invalid credentials` when
absent; 401 `Invalid credentials` when `bcrypt.compare(password,
passwordHash)` fails; else stamp `lastLoginDate` and succeed. The
route never reads or writes `loginAttempts` / `lockUntil`. -/
def employeeLogin (bc : String → String) (now : Nat) (db : List Employee)
    (username password : String) : EmpLoginResult × List Employee :=
  if username = "" || password = "" then (.missingFields, db)
  else
    match findEmployee db username with
    | none => (.invalidCredentials, db)
    | some employee =>
      if bc password == employee.passwordHash then
        let e' := { employee with lastLoginDate := some now }
        (.success employee.employeeId, saveEmployee db e')
      else (.invalidCredentials, db)

/-! ## Client-side inactivity monitor (SecurityContext, the employee
variant with the 25/28/29/30-minute timers). Time is in minutes. -/

/-- Monitor state: the four scheduled timeouts of `timersRef` (absolute
fire times, `none` when cleared or consumed), the `alertShownRef`
latches, counters of how often each warning alert was actually shown,
and whether the 30-minute logout ran. -/
structure MonState where
  t25 : Option Nat := none
  t28 : Option Nat := none
  t29 : Option Nat := none
  tLogout : Option Nat := none
  latch25 : Bool := false
  latch5 : Bool := false
  latch2 : Bool := false
  latch1 : Bool := false
  shown25 : Nat := 0
  shown28 : Nat := 0
  shown29 : Nat := 0
  loggedOut : Bool := false
deriving DecidableEq, Repr

/-- Source `clearAllTimers()`: cancel the four timeouts and clear every latch of
`alertShownRef`. -/
def clearAllTimers (s : MonState) : MonState :=
  { s with t25 := none, t28 := none, t29 := none, tLogout := none,
           latch25 := false, latch5 := false, latch2 := false, latch1 := false }

/-- Source `startInactivityTimer()` at minute `now`: clear everything, then
schedule the 25, 28, 29 and 30-minute timeouts. -/
def startInactivityTimer (now : Nat) (s : MonState) : MonState :=
  let s := clearAllTimers s
  { s with t25 := some (now + 25), t28 := some (now + 28),
           t29 := some (now + 29), tLogout := some (now + 30) }

/-- The 25-minute timeout callback: show the warning unless the
`warning25` latch is set, then set it; the timeout is consumed. -/
def fire25 (s : MonState) : MonState :=
  let s := { s with t25 := none }
  if s.latch25 then s else { s with shown25 := s.shown25 + 1, latch25 := true }

/-- The 28-minute timeout callback (its latch is `warning2`). -/
def fire28 (s : MonState) : MonState :=
  let s := { s with t28 := none }
  if s.latch2 then s else { s with shown28 := s.shown28 + 1, latch2 := true }

/-- The 29-minute timeout callback (its latch is `warning1`). -/
def fire29 (s : MonState) : MonState :=
  let s := { s with t29 := none }
  if s.latch1 then s else { s with shown29 := s.shown29 + 1, latch1 := true }

/-- The 30-minute timeout callback: `employeeLogout()` — session cleared,
timers cleared, redirect. -/
def fireLogout (s : MonState) : MonState :=
  clearAllTimers { s with tLogout := none, loggedOut := true }

/-- Run every timeout due by minute `T`, in schedule order. -/
def advanceTo (T : Nat) (s : MonState) : MonState :=
  let s := match s.t25 with
    | some t => if t ≤ T then fire25 s else s
    | none => s
  let s := match s.t28 with
    | some t => if t ≤ T then fire28 s else s
    | none => s
  let s := match s.t29 with
    | some t => if t ≤ T then fire29 s else s
    | none => s
  match s.tLogout with
    | some t => if t ≤ T then fireLogout s else s
    | none => s

/-- Source `resetInactivityTimer()`: when an employee session is active, any
qualifying activity event restarts the whole machine. -/
def resetInactivityTimer (employeeActive : Bool) (now : Nat) (s : MonState) : MonState :=
  if employeeActive then startInactivityTimer now s else s

/-- One idle period: the timers started at minute `t0` and no qualifying
activity observed up to minute `T`. -/
def runIdle (t0 T : Nat) : MonState :=
  advanceTo T (startInactivityTimer t0 {})

/-! ## Customer transaction list (routes/transactions.js GET /) -/

/-- The fields the customer list projects with
`.select('amount currency provider swiftCode beneficiaryAccount date')`. -/
structure TxView where
  amount : Nat
  currency : String
  provider : String
  swiftCode : String
  beneficiaryAccount : String
  date : Nat
deriving DecidableEq, Repr

/-- The projection applied by `.select`. -/
def txView (t : Transaction) : TxView :=
  { amount := t.amount, currency := t.currency, provider := t.provider,
    swiftCode := t.swiftCode, beneficiaryAccount := t.beneficiaryAccount,
    date := t.date }

/-- GET /api/transactions (customer): 401 without a session user; else
`Transaction.find({ userId })`, newest first, projected. The query is
scoped by the session's user id, never by a client-supplied id. -/
def customerListTransactions (sessionUserId : Option Nat)
    (store : List Transaction) : Except String (List Transaction) :=
  match sessionUserId with
  | none => .error "Unauthorized - Please log in"
  | some userId =>
    .ok (((store.filter (fun t => t.userId == userId)).mergeSort
      (fun a b => b.date ≤ a.date)))

/-- The response body: the projected documents. -/
def customerListViews (sessionUserId : Option Nat)
    (store : List Transaction) : Except String (List TxView) :=
  (customerListTransactions sessionUserId store).map (List.map txView)

/-! ## The spec's wording of the strength policy, for comparison with
`analyzePasswordStrength` (the claim under test speaks of "six
independent boolean requirement checks": length 8-128, lowercase,
uppercase, digit, special character, not in the common-password
block-list). -/

/-- Modelled from the spec wording of claim C5: the six checks the claim
says `isStrong` is equivalent to. -/
def specSixChecks (password : String) : Bool :=
  decide (MIN_LENGTH ≤ password.length ∧ password.length ≤ 128)
    && password.toList.any Char.isLower
    && password.toList.any Char.isUpper
    && password.toList.any Char.isDigit
    && password.toList.any (fun c => "@$!%*?&".toList.contains c)
    && !isCommonPassword password

/-! ## Theorems -/

/-- Helper: the requirement count is the number of true fields, so it
reaches 8 exactly when all eight requirements hold, and never exceeds 8. -/
theorem requirements_count_spec (r : Requirements) :
    (8 ≤ r.count ↔
      (r.length = true ∧ r.uppercase = true ∧ r.lowercase = true ∧
       r.numbers = true ∧ r.specialChars = true ∧ r.noCommon = true ∧
       r.noPersonalInfo = true ∧ r.noSequential = true)) ∧ r.count ≤ 8 := by
  obtain ⟨a, b, c, d, e, f, g, h⟩ := r
  cases a <;> cases b <;> cases c <;> cases d <;>
    cases e <;> cases f <;> cases g <;> cases h <;>
    exact ⟨by decide, by decide⟩

/-- Helper: the 12.5-per-requirement score reaches 100 exactly when the
count reaches 8. -/
theorem score_ge_100_iff (c : ℕ) : ((25 / 2 : ℚ) * c ≥ 100) ↔ 8 ≤ c := by
  rw [ge_iff_le, show (100 : ℚ) = (25 / 2) * 8 by norm_num,
    mul_le_mul_left (by norm_num : (0 : ℚ) < 25 / 2)]
  exact_mod_cast Iff.rfl

/-- Helper: the score equals 100 exactly when the count equals 8. -/
theorem score_eq_100_iff (c : ℕ) : ((25 / 2 : ℚ) * c = 100) ↔ c = 8 := by
  rw [show (100 : ℚ) = (25 / 2) * 8 by norm_num,
    mul_right_inj' (by norm_num : (25 / 2 : ℚ) ≠ 0)]
  exact_mod_cast Iff.rfl

/-- Helper: `isStrong` holds exactly when all eight requirement booleans
of `analyzePasswordStrength` are true. -/
theorem isStrong_iff_requirements (password : String) :
    (analyzePasswordStrength password).isStrong = true ↔
      ((strengthRequirements password).length = true ∧
       (strengthRequirements password).uppercase = true ∧
       (strengthRequirements password).lowercase = true ∧
       (strengthRequirements password).numbers = true ∧
       (strengthRequirements password).specialChars = true ∧
       (strengthRequirements password).noCommon = true ∧
       (strengthRequirements password).noPersonalInfo = true ∧
       (strengthRequirements password).noSequential = true) := by
  rw [show (analyzePasswordStrength password).isStrong
      = decide ((25 / 2 : ℚ) * (strengthRequirements password).count ≥ 100) from rfl,
    decide_eq_true_iff, score_ge_100_iff]
  exact (requirements_count_spec (strengthRequirements password)).1

/-- Helper: `isStrong` holds exactly when the score is exactly 100. -/
theorem isStrong_iff_score_100 (password : String) :
    (analyzePasswordStrength password).isStrong = true ↔
      (analyzePasswordStrength password).score = 100 := by
  have hle := (requirements_count_spec (strengthRequirements password)).2
  rw [show (analyzePasswordStrength password).isStrong
      = decide ((25 / 2 : ℚ) * (strengthRequirements password).count ≥ 100) from rfl,
    show (analyzePasswordStrength password).score
      = (25 / 2 : ℚ) * (strengthRequirements password).count from rfl,
    decide_eq_true_iff, score_ge_100_iff, score_eq_100_iff]
  omega

/-- C7: the customer list operation is scoped to the session's own user
id — every transaction it returns is owned by the authenticated
customer, and a transaction owned by any other customer is never in the
result (and an unauthenticated call is refused). -/
theorem customer_list_scoped_to_owner (uid : Nat) (store : List Transaction)
    (t : Transaction) (l : List Transaction)
    (hok : customerListTransactions (some uid) store = .ok l) :
    (t ∈ l → t.userId = uid) ∧
    (t.userId ≠ uid → t ∉ l) ∧
    (∀ s : List Transaction, customerListTransactions none s
      = .error "Unauthorized - Please log in") := by
  have hl : l = (store.filter (fun t => t.userId == uid)).mergeSort
      (fun a b => b.date ≤ a.date) := by
    simpa [customerListTransactions] using hok.symm
  subst hl
  refine ⟨?_, ?_, fun _ => rfl⟩
  · intro hmem
    have hmem' : t ∈ store.filter (fun t => t.userId == uid) :=
      List.mem_mergeSort.mp hmem
    have := List.of_mem_filter hmem'
    simpa using this
  · intro hne hmem
    have hmem' : t ∈ store.filter (fun t => t.userId == uid) :=
      List.mem_mergeSort.mp hmem
    have := List.of_mem_filter hmem'
    simp at this
    exact hne this

/-- C7 witness: a two-owner store; the list for customer 1 contains that
customer's transaction and not customer 2's. -/
theorem customer_list_scoped_to_owner_witness :
    (customerListTransactions (some 1)
      [{ id := 10, userId := 1, amount := 100, currency := "USD", provider := "FNB",
         swiftCode := "FIRNZAJJXXX", beneficiaryAccount := "ACC12345", date := 3 },
       { id := 11, userId := 2, amount := 50, currency := "EUR", provider := "ABSA",
         swiftCode := "ABSAZAJJ", beneficiaryAccount := "ACC99999", date := 4 }]
      = .ok [{ id := 10, userId := 1, amount := 100, currency := "USD", provider := "FNB",
               swiftCode := "FIRNZAJJXXX", beneficiaryAccount := "ACC12345", date := 3 }]) ∧
    ({ id := 11, userId := 2, amount := 50, currency := "EUR", provider := "ABSA",
       swiftCode := "ABSAZAJJ", beneficiaryAccount := "ACC99999", date := 4 : Transaction }
      ∉ [{ id := 10, userId := 1, amount := 100, currency := "USD", provider := "FNB",
           swiftCode := "FIRNZAJJXXX", beneficiaryAccount := "ACC12345", date := 3 : Transaction }]) := by
  have hok : customerListTransactions (some 1)
      [{ id := 10, userId := 1, amount := 100, currency := "USD", provider := "FNB",
         swiftCode := "FIRNZAJJXXX", beneficiaryAccount := "ACC12345", date := 3 },
       { id := 11, userId := 2, amount := 50, currency := "EUR", provider := "ABSA",
         swiftCode := "ABSAZAJJ", beneficiaryAccount := "ACC99999", date := 4 }]
      = .ok [{ id := 10, userId := 1, amount := 100, currency := "USD", provider := "FNB",
               swiftCode := "FIRNZAJJXXX", beneficiaryAccount := "ACC12345", date := 3 }] := by
    rw [customerListTransactions,
      show List.filter (fun t : Transaction => t.userId == 1)
        [{ id := 10, userId := 1, amount := 100, currency := "USD", provider := "FNB",
           swiftCode := "FIRNZAJJXXX", beneficiaryAccount := "ACC12345", date := 3 },
         { id := 11, userId := 2, amount := 50, currency := "EUR", provider := "ABSA",
           swiftCode := "ABSAZAJJ", beneficiaryAccount := "ACC99999", date := 4 }]
        = [{ id := 10, userId := 1, amount := 100, currency := "USD", provider := "FNB",
             swiftCode := "FIRNZAJJXXX", beneficiaryAccount := "ACC12345", date := 3 }] by decide,
      List.mergeSort_singleton]
  refine ⟨hok, ?_⟩
  exact (customer_list_scoped_to_owner 1
    [{ id := 10, userId := 1, amount := 100, currency := "USD", provider := "FNB",
       swiftCode := "FIRNZAJJXXX", beneficiaryAccount := "ACC12345", date := 3 },
     { id := 11, userId := 2, amount := 50, currency := "EUR", provider := "ABSA",
       swiftCode := "ABSAZAJJ", beneficiaryAccount := "ACC99999", date := 4 }]
    { id := 11, userId := 2, amount := 50, currency := "EUR", provider := "ABSA",
      swiftCode := "ABSAZAJJ", beneficiaryAccount := "ACC99999", date := 4 }
    _ hok).2.1 (by decide)

/-- Helper: a `findTx` hit is a member of the store carrying the looked-up
id. -/
theorem findTx_mem {store : List Transaction} {id : Nat} {tx : Transaction}
    (hfind : findTx store id = some tx) : tx ∈ store ∧ tx.id = id := by
  refine ⟨List.mem_of_find?_eq_some hfind, ?_⟩
  have := List.find?_some hfind
  simpa using this

/-- Helper: the fields `applyVerify` writes and preserves. -/
theorem applyVerify_fields (empId now : Nat) (notes : Option String) (tx : Transaction) :
    (applyVerify empId now notes tx).status = .verified ∧
    (applyVerify empId now notes tx).verifiedBy = some empId ∧
    (applyVerify empId now notes tx).verifiedAt = some now ∧
    (applyVerify empId now notes tx).submittedToSwift = tx.submittedToSwift ∧
    (applyVerify empId now notes tx).id = tx.id := by
  cases notes with
  | none => simp [applyVerify]
  | some n => by_cases hn : n = "" <;> simp [applyVerify, hn]

/-- C1 counterexample: submitting a transaction that is already in the
`submitted` state fails with the `must be verified before submitting`
state-conflict error — not the `already submitted` error the claim
names (that branch is reachable only for a `verified` transaction whose
`submittedToSwift` flag is somehow already set). -/
theorem submit_on_submitted_gives_must_be_verified :
    (submitRoute 500 1
      [{ id := 1, userId := 7, amount := 100, currency := "USD", provider := "FNB",
         swiftCode := "FIRNZAJJXXX", beneficiaryAccount := "ACC12345", date := 0,
         status := .submitted, verifiedBy := some 9, verifiedAt := some 10,
         submittedToSwift := true, submittedAt := some 20 }]).1
      = .error .mustBeVerified ∧
    (SubmitError.mustBeVerified ≠ SubmitError.alreadySubmittedToSwift) := by
  exact ⟨rfl, by decide⟩

/-- C1 (amended): the transaction state machine is strictly forward-only.
Verify succeeds only from `pending` (otherwise the `already ...`
state-conflict error, store unchanged) and is the only transition
stamping `verifiedBy`/`verifiedAt`; submit succeeds only from `verified`
with `submittedToSwift` still false, and fails with the
`must be verified` error on BOTH `pending` and `submitted` (the
`already submitted` error is reserved for a verified transaction whose
flag is already set); `submittedToSwift` becomes true only by the submit
transition from `verified`; and under unique document ids no route moves
any stored transaction's status backward. -/
theorem transaction_state_machine_forward_only
    (empId now now2 id : Nat) (notes : Option String)
    (store : List Transaction) (tx : Transaction)
    (hfind : findTx store id = some tx) :
    (tx.status ≠ .pending →
      verifyRoute empId now notes id store = (.error (.alreadyStatus tx.status), store)) ∧
    (∀ tx', (verifyRoute empId now notes id store).1 = .ok tx' →
      tx.status = .pending ∧ tx'.status = .verified ∧
      tx'.verifiedBy = some empId ∧ tx'.verifiedAt = some now ∧
      tx'.submittedToSwift = tx.submittedToSwift) ∧
    (tx.status = .pending → submitRoute now2 id store = (.error .mustBeVerified, store)) ∧
    (tx.status = .submitted → submitRoute now2 id store = (.error .mustBeVerified, store)) ∧
    (∀ tx', (submitRoute now2 id store).1 = .ok tx' →
      tx.status = .verified ∧ tx.submittedToSwift = false ∧
      tx'.status = .submitted ∧ tx'.submittedToSwift = true ∧
      tx'.verifiedBy = tx.verifiedBy ∧ tx'.verifiedAt = tx.verifiedAt) ∧
    ((∀ a ∈ store, ∀ b ∈ store, a.id = b.id → a = b) →
      (∀ t' ∈ (verifyRoute empId now notes id store).2,
        ∃ t ∈ store, t.id = t'.id ∧ statusRank t.status ≤ statusRank t'.status) ∧
      (∀ t' ∈ (submitRoute now2 id store).2,
        ∃ t ∈ store, t.id = t'.id ∧ statusRank t.status ≤ statusRank t'.status)) := by
  obtain ⟨hmem, hid⟩ := findTx_mem hfind
  refine ⟨?_, ?_, ?_, ?_, ?_, ?_⟩
  · intro h
    simp [verifyRoute, hfind, h]
  · intro tx' hok
    by_cases hst : tx.status = .pending
    · rw [show (verifyRoute empId now notes id store).1
          = .ok (applyVerify empId now notes tx) by
            simp only [verifyRoute, hfind]
            rw [if_neg (by simp [hst])]] at hok
      obtain ⟨h1, h2, h3, h4, _⟩ := applyVerify_fields empId now notes tx
      simp only [Except.ok.injEq] at hok
      subst hok
      exact ⟨hst, h1, h2, h3, h4⟩
    · simp [verifyRoute, hfind, hst] at hok
  · intro h
    simp [submitRoute, hfind, h]
  · intro h
    simp [submitRoute, hfind, h]
  · intro tx' hok
    by_cases hst : tx.status = .verified
    · by_cases hsw : tx.submittedToSwift
      · simp [submitRoute, hfind, hst, hsw] at hok
      · rw [show (submitRoute now2 id store).1 = .ok (applySubmit now2 tx) by
            simp only [submitRoute, hfind]
            rw [if_neg (by simp [hst]), if_neg (by simp [hsw])]] at hok
        simp only [Except.ok.injEq] at hok
        subst hok
        exact ⟨hst, by simpa using hsw, rfl, rfl, rfl, rfl⟩
    · simp [submitRoute, hfind, hst] at hok
  · intro huniq
    constructor
    · intro t' hmem'
      by_cases hst : tx.status = .pending
      · rw [show (verifyRoute empId now notes id store).2
            = saveTx store (applyVerify empId now notes tx) by
              simp only [verifyRoute, hfind]
              rw [if_neg (by simp [hst])]] at hmem'
        obtain ⟨t, ht, hft⟩ := List.mem_map.mp hmem'
        obtain ⟨h1, _, _, _, hid'⟩ := applyVerify_fields empId now notes tx
        by_cases hcase : t.id = (applyVerify empId now notes tx).id
        · have ht' : t' = applyVerify empId now notes tx := by
            rw [← hft, if_pos (by simpa using hcase)]
          have hteq : t = tx := huniq t ht tx hmem (by rw [hcase, hid'])
          refine ⟨t, ht, ?_, ?_⟩
          · rw [ht', hcase]
          · rw [hteq, hst, ht', h1]
            decide
        · have ht' : t' = t := by
            rw [← hft, if_neg (by simpa using hcase)]
          exact ⟨t, ht, by rw [ht'], by rw [ht']⟩
      · rw [show (verifyRoute empId now notes id store).2 = store by
            simp [verifyRoute, hfind, hst]] at hmem'
        exact ⟨t', hmem', rfl, le_refl _⟩
    · intro t' hmem'
      by_cases hst : tx.status = .verified
      · by_cases hsw : tx.submittedToSwift
        · rw [show (submitRoute now2 id store).2 = store by
              simp [submitRoute, hfind, hst, hsw]] at hmem'
          exact ⟨t', hmem', rfl, le_refl _⟩
        · rw [show (submitRoute now2 id store).2
              = saveTx store (applySubmit now2 tx) by
                simp only [submitRoute, hfind]
                rw [if_neg (by simp [hst]), if_neg (by simp [hsw])]] at hmem'
          obtain ⟨t, ht, hft⟩ := List.mem_map.mp hmem'
          by_cases hcase : t.id = (applySubmit now2 tx).id
          · have ht' : t' = applySubmit now2 tx := by
              rw [← hft, if_pos (by simpa using hcase)]
            have hteq : t = tx := huniq t ht tx hmem (by simpa [applySubmit] using hcase)
            refine ⟨t, ht, ?_, ?_⟩
            · rw [ht', hcase]
            · rw [hteq, hst, ht']
              simp [applySubmit, statusRank]
          · have ht' : t' = t := by
              rw [← hft, if_neg (by simpa using hcase)]
            exact ⟨t, ht, by rw [ht'], by rw [ht']⟩
      · rw [show (submitRoute now2 id store).2 = store by
            simp [submitRoute, hfind, hst]] at hmem'
        exact ⟨t', hmem', rfl, le_refl _⟩

/-- C1 witness: verify on an already-verified transaction fails with the
state-conflict error leaving the store unchanged, and submit on a
pending transaction fails with the must-be-verified error. -/
theorem transaction_state_machine_forward_only_witness :
    verifyRoute 9 100 none 1
      [{ id := 1, userId := 7, amount := 100, currency := "USD", provider := "FNB",
         swiftCode := "FIRNZAJJXXX", beneficiaryAccount := "ACC12345", date := 0,
         status := .verified, verifiedBy := some 4, verifiedAt := some 50 }]
      = (.error (.alreadyStatus .verified),
         [{ id := 1, userId := 7, amount := 100, currency := "USD", provider := "FNB",
            swiftCode := "FIRNZAJJXXX", beneficiaryAccount := "ACC12345", date := 0,
            status := .verified, verifiedBy := some 4, verifiedAt := some 50 }]) ∧
    submitRoute 200 1
      [{ id := 1, userId := 7, amount := 100, currency := "USD", provider := "FNB",
         swiftCode := "FIRNZAJJXXX", beneficiaryAccount := "ACC12345", date := 0 }]
      = (.error .mustBeVerified,
         [{ id := 1, userId := 7, amount := 100, currency := "USD", provider := "FNB",
            swiftCode := "FIRNZAJJXXX", beneficiaryAccount := "ACC12345", date := 0 }]) :=
  ⟨(transaction_state_machine_forward_only 9 100 200 1 none
      [{ id := 1, userId := 7, amount := 100, currency := "USD", provider := "FNB",
         swiftCode := "FIRNZAJJXXX", beneficiaryAccount := "ACC12345", date := 0,
         status := .verified, verifiedBy := some 4, verifiedAt := some 50 }]
      { id := 1, userId := 7, amount := 100, currency := "USD", provider := "FNB",
        swiftCode := "FIRNZAJJXXX", beneficiaryAccount := "ACC12345", date := 0,
        status := .verified, verifiedBy := some 4, verifiedAt := some 50 }
      (by decide)).1 (by decide),
   (transaction_state_machine_forward_only 9 100 200 1 none
      [{ id := 1, userId := 7, amount := 100, currency := "USD", provider := "FNB",
         swiftCode := "FIRNZAJJXXX", beneficiaryAccount := "ACC12345", date := 0 }]
      { id := 1, userId := 7, amount := 100, currency := "USD", provider := "FNB",
        swiftCode := "FIRNZAJJXXX", beneficiaryAccount := "ACC12345", date := 0 }
      (by decide)).2.2.1 rfl⟩

/-- C4: bulk submit with a non-empty id list: when no requested
transaction is currently `verified` the whole call fails with the
no-eligible-transactions error and the store is untouched; otherwise the
reported count is exactly the number of requested `verified`
transactions, and position by position every requested `verified`
transaction becomes `submitted` with `submittedToSwift` set while every
transaction that is not verified, or not requested, is unchanged. -/
theorem submit_bulk_partial_batch (now : Nat) (ids : List Nat)
    (store : List Transaction) (hne : ids ≠ []) :
    ((store.filter (fun t => ids.contains t.id && t.status == .verified)) = [] →
      submitBulkRoute now ids store = (.error .noEligible, store)) ∧
    ((store.filter (fun t => ids.contains t.id && t.status == .verified)) ≠ [] →
      ∃ store',
        submitBulkRoute now ids store
          = (.ok (store.filter
              (fun t => ids.contains t.id && t.status == .verified)).length, store') ∧
        store'.length = store.length ∧
        (∀ i (hi : i < store.length) (hi' : i < store'.length),
          ((store.get ⟨i, hi⟩).status = .verified →
            ids.contains (store.get ⟨i, hi⟩).id = true →
            (store'.get ⟨i, hi'⟩).status = .submitted ∧
            (store'.get ⟨i, hi'⟩).submittedToSwift = true ∧
            (store'.get ⟨i, hi'⟩).submittedAt = some now ∧
            (store'.get ⟨i, hi'⟩).verifiedBy = (store.get ⟨i, hi⟩).verifiedBy) ∧
          ((store.get ⟨i, hi⟩).status ≠ .verified →
            store'.get ⟨i, hi'⟩ = store.get ⟨i, hi⟩) ∧
          (ids.contains (store.get ⟨i, hi⟩).id = false →
            store'.get ⟨i, hi'⟩ = store.get ⟨i, hi⟩))) := by
  have hids : ids.isEmpty = false := by
    rw [List.isEmpty_eq_false]
    exact hne
  constructor
  · intro h
    have hel1 : (store.filter
        (fun t => ids.contains t.id && t.status == .verified)).isEmpty = true := by
      rw [h]
      rfl
    simp only [submitBulkRoute, hids, hel1, Bool.false_eq_true, if_false, if_true]
  · intro hne2
    have hel : (store.filter
        (fun t => ids.contains t.id && t.status == .verified)).isEmpty = false := by
      rw [List.isEmpty_eq_false]
      exact hne2
    have hex : ∃ x ∈ store, x.id ∈ ids ∧ x.status = TxStatus.verified := by
      obtain ⟨a, ha⟩ := List.exists_mem_of_ne_nil _ hne2
      have h1 := List.mem_filter.mp ha
      have h2 := h1.2
      rw [Bool.and_eq_true, beq_iff_eq] at h2
      exact ⟨a, h1.1, by simpa using h2.1, h2.2⟩
    refine ⟨store.map (fun t =>
        if ids.contains t.id && t.status == .verified then applySubmit now t else t),
      by simp [submitBulkRoute, hids]; exact hex, by simp, ?_⟩
    intro i hi hi'
    simp only [List.get_eq_getElem, List.getElem_map]
    refine ⟨?_, ?_, ?_⟩
    · intro hst hin
      rw [if_pos (by rw [Bool.and_eq_true, beq_iff_eq]; exact ⟨hin, hst⟩)]
      exact ⟨rfl, rfl, rfl, rfl⟩
    · intro hst
      rw [if_neg (by
        intro hcon
        rw [Bool.and_eq_true, beq_iff_eq] at hcon
        exact hst hcon.2)]
    · intro hin
      rw [if_neg (by
        intro hcon
        rw [Bool.and_eq_true] at hcon
        rw [hin] at hcon
        exact Bool.false_ne_true hcon.1)]

/-- C4 witness: the spec's own scenario — ids [1, 2, 3] over a verified,
a pending and a submitted transaction submits exactly one. -/
theorem submit_bulk_partial_batch_witness :
    (submitBulkRoute 777 [1, 2, 3]
      [{ id := 1, userId := 7, amount := 10, currency := "USD", provider := "FNB",
         swiftCode := "FIRNZAJJXXX", beneficiaryAccount := "A1", date := 0,
         status := .verified, verifiedBy := some 4, verifiedAt := some 5 },
       { id := 2, userId := 7, amount := 20, currency := "USD", provider := "FNB",
         swiftCode := "FIRNZAJJXXX", beneficiaryAccount := "A2", date := 0,
         status := .pending },
       { id := 3, userId := 8, amount := 30, currency := "EUR", provider := "ABSA",
         swiftCode := "ABSAZAJJ", beneficiaryAccount := "A3", date := 0,
         status := .submitted, submittedToSwift := true }]).1 = .ok 1 ∧
    submitBulkRoute 777 [9]
      [{ id := 2, userId := 7, amount := 20, currency := "USD", provider := "FNB",
         swiftCode := "FIRNZAJJXXX", beneficiaryAccount := "A2", date := 0,
         status := .pending }]
      = (.error .noEligible,
         [{ id := 2, userId := 7, amount := 20, currency := "USD", provider := "FNB",
            swiftCode := "FIRNZAJJXXX", beneficiaryAccount := "A2", date := 0,
            status := .pending }]) := by
  constructor
  · obtain ⟨store', heq, -, -⟩ :=
      (submit_bulk_partial_batch 777 [1, 2, 3]
        [{ id := 1, userId := 7, amount := 10, currency := "USD", provider := "FNB",
           swiftCode := "FIRNZAJJXXX", beneficiaryAccount := "A1", date := 0,
           status := .verified, verifiedBy := some 4, verifiedAt := some 5 },
         { id := 2, userId := 7, amount := 20, currency := "USD", provider := "FNB",
           swiftCode := "FIRNZAJJXXX", beneficiaryAccount := "A2", date := 0,
           status := .pending },
         { id := 3, userId := 8, amount := 30, currency := "EUR", provider := "ABSA",
           swiftCode := "ABSAZAJJ", beneficiaryAccount := "A3", date := 0,
           status := .submitted, submittedToSwift := true }]
        (by decide)).2 (by decide)
    rw [heq]
    rfl
  · exact (submit_bulk_partial_batch 777 [9]
      [{ id := 2, userId := 7, amount := 20, currency := "USD", provider := "FNB",
         swiftCode := "FIRNZAJJXXX", beneficiaryAccount := "A2", date := 0,
         status := .pending }] (by decide)).1 (by decide)

/-- Helper: `handleFailedLogin` never changes the document id. -/
theorem handleFailedLogin_id (now : Nat) (u : CUser) :
    ((handleFailedLogin now u).2).id = u.id := by
  unfold handleFailedLogin
  cases h : u.lockoutUntil <;> simp only [h] <;> split_ifs <;> rfl

/-- C3: the customer lockout policy. While `lockoutUntil` lies in the
future, login is refused with the distinct 423 locked response before
any password verification (the outcome is the same for every password,
including the correct one) and the store is untouched. A failed password
verification increments `loginAttempts` (from a lock-free state), the
counter reaching MAX_LOGIN_ATTEMPTS = 5 locks the account until
`now + LOCKOUT_TIME` (30 minutes), and the route persists exactly that
updated document. -/
theorem customer_lockout_policy (bc : String → String) (now : Nat)
    (db : List CUser) (username accountNumber password : String) (u : CUser)
    (hfind : findCustomer db username accountNumber = some u) :
    (∀ t, u.lockoutUntil = some t → now < t →
      customerLogin bc now db username accountNumber password
        = (.locked (some t), db)) ∧
    (∀ t r, (LoginResult.locked t ≠ .invalidUser) ∧
      (LoginResult.locked t ≠ .invalidPassword r)) ∧
    (∀ v : CUser, v.lockoutUntil = none →
      ((handleFailedLogin now v).2).loginAttempts = v.loginAttempts + 1 ∧
      (MAX_LOGIN_ATTEMPTS ≤ v.loginAttempts + 1 →
        ((handleFailedLogin now v).2).lockoutUntil = some (now + LOCKOUT_TIME)) ∧
      (v.loginAttempts + 1 < MAX_LOGIN_ATTEMPTS →
        ((handleFailedLogin now v).2).lockoutUntil = none)) ∧
    (u.lockoutUntil = none →
      verifyPassword bc password u.passwordHash u.passwordSalt = false →
      (customerLogin bc now db username accountNumber password).1
        = .invalidPassword (some (MAX_LOGIN_ATTEMPTS - (u.loginAttempts + 1))) ∧
      (∀ x ∈ (customerLogin bc now db username accountNumber password).2,
        x.id = u.id →
          x.loginAttempts = u.loginAttempts + 1 ∧
          (MAX_LOGIN_ATTEMPTS ≤ u.loginAttempts + 1 →
            x.lockoutUntil = some (now + LOCKOUT_TIME)))) := by
  have hstep : ∀ v : CUser, v.lockoutUntil = none →
      ((handleFailedLogin now v).2).loginAttempts = v.loginAttempts + 1 ∧
      (MAX_LOGIN_ATTEMPTS ≤ v.loginAttempts + 1 →
        ((handleFailedLogin now v).2).lockoutUntil = some (now + LOCKOUT_TIME)) ∧
      (v.loginAttempts + 1 < MAX_LOGIN_ATTEMPTS →
        ((handleFailedLogin now v).2).lockoutUntil = none) := by
    intro v hv
    unfold handleFailedLogin
    rw [hv]
    by_cases hge : MAX_LOGIN_ATTEMPTS ≤ v.loginAttempts + 1
    · simp [hge]
    · exact ⟨by simp [hge], fun h => absurd h hge, fun _ => by simp [hge, hv]⟩
  refine ⟨?_, fun t r => ⟨by simp, by simp⟩, hstep, ?_⟩
  · intro t ht hnow
    unfold customerLogin
    rw [hfind]
    simp [isAccountLocked, ht, hnow]
  · intro hnone hwrong
    have hlock : isAccountLocked now u
        = (LockStatus.mk false none (MAX_LOGIN_ATTEMPTS - u.loginAttempts), u) := by
      simp [isAccountLocked, hnone]
    have hroute : customerLogin bc now db username accountNumber password
        = (.invalidPassword (some (MAX_LOGIN_ATTEMPTS - ((handleFailedLogin now u).2).loginAttempts)),
           saveCUser (saveCUser db u) (handleFailedLogin now u).2) := by
      unfold customerLogin
      rw [hfind]
      simp only [hlock, hwrong]
      rfl
    obtain ⟨hinc, hlockat, -⟩ := hstep u hnone
    constructor
    · rw [hroute, hinc]
    · intro x hx hxid
      rw [hroute] at hx
      simp only [saveCUser, List.mem_map] at hx
      obtain ⟨y, ⟨x0, hx0, hfy⟩, hgy⟩ := hx
      have huid : ((handleFailedLogin now u).2).id = u.id := handleFailedLogin_id now u
      by_cases hcase : x0.id = u.id
      · rw [if_pos (by simpa using hcase)] at hfy
        subst hfy
        rw [if_pos (by simpa using huid.symm)] at hgy
        subst hgy
        exact ⟨hinc, hlockat⟩
      · rw [if_neg (by simpa using hcase)] at hfy
        subst hfy
        rw [if_neg (by rw [huid]; simpa using hcase)] at hgy
        subst hgy
        exact absurd hxid hcase

/-- C3 witness: a locked customer is refused with the 423 response even
with the correct password, and a wrong-password attempt on a customer
with 4 prior failures locks the account for 30 minutes. -/
theorem customer_lockout_policy_witness :
    customerLogin (fun s => s) 1000
      [{ id := 1, username := "jan", accountNumber := "12345678", isActive := true,
         passwordHash := "pwssalt", passwordSalt := "ssalt",
         loginAttempts := 5, lockoutUntil := some 2000 }] "jan" "12345678" "pws"
      = (.locked (some 2000),
         [{ id := 1, username := "jan", accountNumber := "12345678", isActive := true,
            passwordHash := "pwssalt", passwordSalt := "ssalt",
            loginAttempts := 5, lockoutUntil := some 2000 }]) ∧
    (customerLogin (fun s => s) 1000
      [{ id := 1, username := "jan", accountNumber := "12345678", isActive := true,
         passwordHash := "pwssalt", passwordSalt := "ssalt",
         loginAttempts := 4 }] "jan" "12345678" "bad").1
      = .invalidPassword (some 0) := by
  constructor
  · exact (customer_lockout_policy (fun s => s) 1000
      [{ id := 1, username := "jan", accountNumber := "12345678", isActive := true,
         passwordHash := "pwssalt", passwordSalt := "ssalt",
         loginAttempts := 5, lockoutUntil := some 2000 }] "jan" "12345678" "pws"
      { id := 1, username := "jan", accountNumber := "12345678", isActive := true,
        passwordHash := "pwssalt", passwordSalt := "ssalt",
        loginAttempts := 5, lockoutUntil := some 2000 }
      (by decide)).1 2000 rfl (by decide)
  · exact ((customer_lockout_policy (fun s => s) 1000
      [{ id := 1, username := "jan", accountNumber := "12345678", isActive := true,
         passwordHash := "pwssalt", passwordSalt := "ssalt",
         loginAttempts := 4 }] "jan" "12345678" "bad"
      { id := 1, username := "jan", accountNumber := "12345678", isActive := true,
        passwordHash := "pwssalt", passwordSalt := "ssalt",
        loginAttempts := 4 }
      (by decide)).2.2.2 rfl (by decide)).1

/-- C8: in an idle period with zero qualifying activity, each of the 25,
28 and 29-minute warnings is shown at most once; once 30 idle minutes
have elapsed the monitor has invoked the session logout; and a
qualifying activity event (with an employee session active) restarts all
four timers from the event time and clears every per-threshold latch. -/
theorem inactivity_monitor_behavior (t0 T t : Nat) (s : MonState) :
    ((runIdle t0 T).shown25 ≤ 1 ∧ (runIdle t0 T).shown28 ≤ 1 ∧
     (runIdle t0 T).shown29 ≤ 1) ∧
    (t0 + 30 ≤ T → (runIdle t0 T).loggedOut = true) ∧
    ((resetInactivityTimer true t s).t25 = some (t + 25) ∧
     (resetInactivityTimer true t s).t28 = some (t + 28) ∧
     (resetInactivityTimer true t s).t29 = some (t + 29) ∧
     (resetInactivityTimer true t s).tLogout = some (t + 30) ∧
     (resetInactivityTimer true t s).latch25 = false ∧
     (resetInactivityTimer true t s).latch5 = false ∧
     (resetInactivityTimer true t s).latch2 = false ∧
     (resetInactivityTimer true t s).latch1 = false) := by
  refine ⟨?_, ?_, ?_⟩
  · unfold runIdle advanceTo startInactivityTimer clearAllTimers
    by_cases h1 : t0 + 25 ≤ T <;> by_cases h2 : t0 + 28 ≤ T <;>
      by_cases h3 : t0 + 29 ≤ T <;> by_cases h4 : t0 + 30 ≤ T <;>
      simp [h1, h2, h3, h4, fire25, fire28, fire29, fireLogout, clearAllTimers]
  · intro h4
    have h1 : t0 + 25 ≤ T := by omega
    have h2 : t0 + 28 ≤ T := by omega
    have h3 : t0 + 29 ≤ T := by omega
    unfold runIdle advanceTo startInactivityTimer clearAllTimers
    simp [h1, h2, h3, h4, fire25, fire28, fire29, fireLogout, clearAllTimers]
  · simp [resetInactivityTimer, startInactivityTimer, clearAllTimers]

/-- C8 witness: the monitor started at minute 0, observed at minute 30,
and an activity event at minute 5 on an arbitrary mid-flight state. -/
theorem inactivity_monitor_behavior_witness :
    ((runIdle 0 30).shown25 ≤ 1 ∧ (runIdle 0 30).shown28 ≤ 1 ∧
     (runIdle 0 30).shown29 ≤ 1) ∧
    (runIdle 0 30).loggedOut = true ∧
    (resetInactivityTimer true 5
      { latch25 := true, shown25 := 1, t25 := none }).latch25 = false := by
  have h := inactivity_monitor_behavior 0 30 5
    { latch25 := true, shown25 := 1, t25 := none }
  exact ⟨h.1, h.2.1 (by decide), h.2.2.2.2.2.2.1⟩

/-- C5 counterexample: the password "Abc@1xyz" satisfies all six checks
the claim enumerates (length, lowercase, uppercase, digit, special
character, not common), yet `analyzePasswordStrength` does not rate it
strong — the source evaluates eight requirements, and this password
fails the no-sequential-characters check ("abc"). -/
theorem six_checks_insufficient_for_strength :
    specSixChecks "Abc@1xyz" = true ∧
    (analyzePasswordStrength "Abc@1xyz").isStrong = false := by
  refine ⟨by decide, ?_⟩
  cases hb : (analyzePasswordStrength "Abc@1xyz").isStrong
  · rfl
  · have h8 := (isStrong_iff_requirements "Abc@1xyz").mp hb
    exact absurd h8.2.2.2.2.2.2.2 (by decide)

/-- C5 (amended): registration rejects every password whose analysis is
not strong, and `isStrong` holds exactly when all EIGHT boolean
requirement checks pass (the claim's six plus no-personal-info and
no-sequential-characters; the length check is a minimum only), which is
exactly when the strength score reaches 100. -/
theorem strength_gate_eight_checks (password : String) :
    ((analyzePasswordStrength password).isStrong = false →
      registerDecision false password = .weakPassword) ∧
    ((analyzePasswordStrength password).isStrong = true ↔
      ((strengthRequirements password).length = true ∧
       (strengthRequirements password).uppercase = true ∧
       (strengthRequirements password).lowercase = true ∧
       (strengthRequirements password).numbers = true ∧
       (strengthRequirements password).specialChars = true ∧
       (strengthRequirements password).noCommon = true ∧
       (strengthRequirements password).noPersonalInfo = true ∧
       (strengthRequirements password).noSequential = true)) ∧
    ((analyzePasswordStrength password).isStrong = true ↔
      (analyzePasswordStrength password).score = 100) := by
  exact ⟨fun h => by simp [registerDecision, h],
    isStrong_iff_requirements password, isStrong_iff_score_100 password⟩

/-- C5 witness: the amended gate applied to the weak password "abc"
(rejected by registration) and to the strong password "Xk9@mfWq"
(all eight checks pass, score exactly 100). -/
theorem strength_gate_eight_checks_witness :
    registerDecision false "abc" = .weakPassword ∧
    (analyzePasswordStrength "Xk9@mfWq").score = 100 := by
  have hweak : (analyzePasswordStrength "abc").isStrong = false := by
    cases hb : (analyzePasswordStrength "abc").isStrong
    · rfl
    · exact absurd ((strength_gate_eight_checks "abc").2.1.mp hb).1 (by decide)
  exact ⟨(strength_gate_eight_checks "abc").1 hweak,
    ((strength_gate_eight_checks "Xk9@mfWq").2.2).mp
      (((strength_gate_eight_checks "Xk9@mfWq").2.1).mpr (by decide))⟩

/-- C9: the password-history reuse check fails open — it returns false
(password treated as new) when the lookup throws, when the user is
missing, and when the history field is absent; consequently a storage
failure during change-password lets a genuinely reused password through
(`.changed`), while the same password against a working lookup is
refused (`.reused`). -/
theorem password_history_fails_open (bc : String → String) (err : String)
    (u : CUser) (entry : HistEntry) (currentPassword newPassword : String)
    (hcur : verifyPassword bc currentPassword u.passwordHash u.passwordSalt = true)
    (hstrong : (analyzePasswordStrength newPassword).isStrong = true)
    (hreused : verifyPassword bc newPassword entry.hash entry.customSalt = true) :
    checkPasswordHistory bc (.error err) newPassword = false ∧
    checkPasswordHistory bc (.ok none) newPassword = false ∧
    checkPasswordHistory bc (.ok (some { passwordHistory := none })) newPassword = false ∧
    changePasswordDecision bc u (.ok (some { passwordHistory := some [entry] }))
      currentPassword newPassword = .reused ∧
    changePasswordDecision bc u (.error err)
      currentPassword newPassword = .changed := by
  refine ⟨rfl, rfl, rfl, ?_, ?_⟩
  · simp [changePasswordDecision, checkPasswordHistory, hcur, hstrong, hreused]
  · simp [changePasswordDecision, checkPasswordHistory, hcur, hstrong]

/-- C9 witness: a concrete user, a concrete historical entry matching the
new password, a failing lookup accepting the change and a working lookup
refusing it. -/
theorem password_history_fails_open_witness :
    checkPasswordHistory (fun s => s) (.error "db down") "Xk9@mfWq" = false ∧
    changePasswordDecision (fun s => s)
      { id := 1, username := "jan", accountNumber := "12345678",
        isActive := true, passwordHash := "curpwcsalt", passwordSalt := "csalt" }
      (.ok (some { passwordHistory := some [{ hash := "Xk9@mfWqhsalt", customSalt := "hsalt" }] }))
      "curpw" "Xk9@mfWq" = .reused ∧
    changePasswordDecision (fun s => s)
      { id := 1, username := "jan", accountNumber := "12345678",
        isActive := true, passwordHash := "curpwcsalt", passwordSalt := "csalt" }
      (.error "db down") "curpw" "Xk9@mfWq" = .changed := by
  have hstrong : (analyzePasswordStrength "Xk9@mfWq").isStrong = true :=
    (isStrong_iff_requirements "Xk9@mfWq").mpr (by decide)
  have h := password_history_fails_open (fun s => s) "db down"
    { id := 1, username := "jan", accountNumber := "12345678",
      isActive := true, passwordHash := "curpwcsalt", passwordSalt := "csalt" }
    { hash := "Xk9@mfWqhsalt", customSalt := "hsalt" }
    "curpw" "Xk9@mfWq" (by decide) hstrong (by decide)
  exact ⟨h.1, h.2.2.2.1, h.2.2.2.2⟩

/-- C6 counterexample: the claim quantifies over all (P, salt) pairs, but
`verifyPassword` returns false outright for the empty password (the JS
falsy-argument guard) even against the hash produced for that very
password and salt, where the claim requires true. -/
theorem verify_rejects_empty_password :
    verifyPassword (fun s => s) ""
      (hashPassword (fun s => s) "somesalt" "").hash "somesalt" = false := by
  decide

/-- C6 (amended): for a nonempty password and nonempty salt, and bcrypt
modelled as an injective hash with a nonempty digest, verifying the
password against its own hash-with-that-salt succeeds, and verifying the
password extended by "x" against the same stored hash fails. -/
theorem hash_verify_roundtrip (bc : String → String)
    (hinj : Function.Injective bc)
    (password salt : String)
    (hne : bc (password ++ salt) ≠ "")
    (hp : password ≠ "") (hs : salt ≠ "") :
    verifyPassword bc password (hashPassword bc salt password).hash salt = true ∧
    verifyPassword bc (password ++ "x") (hashPassword bc salt password).hash salt = false := by
  constructor
  · simp only [verifyPassword, hashPassword]
    rw [if_neg]
    · simp
    · simp [hp, hs, hne]
  · simp only [verifyPassword, hashPassword]
    have hx1 : "x".length = 1 := rfl
    have hx0 : "".length = 0 := rfl
    have hpx : password ++ "x" ≠ "" := by
      intro h
      have h0 := congrArg String.length h
      rw [String.length_append] at h0
      simp only [hx1, hx0] at h0
      omega
    rw [if_neg]
    · simp only [beq_eq_false_iff_ne, ne_eq]
      intro h
      have h1 := hinj h
      have h2 := congrArg String.length h1
      rw [String.length_append, String.length_append, String.length_append] at h2
      simp only [hx1] at h2
      omega
    · simp [hpx, hs, hne]

/-- C6 witness: the amended roundtrip at a concrete password and salt
with the identity function standing in for bcrypt. -/
theorem hash_verify_roundtrip_witness :
    verifyPassword (fun s => s) "pw"
      (hashPassword (fun s => s) "salt" "pw").hash "salt" = true ∧
    verifyPassword (fun s => s) ("pw" ++ "x")
      (hashPassword (fun s => s) "salt" "pw").hash "salt" = false :=
  hash_verify_roundtrip (fun s => s) (fun _ _ h => h) "pw" "salt"
    (by decide) (by decide) (by decide)

/-- C2 (code bug): the employee login route enforces no lockout at all.
An employee document carrying 5 consecutive failed attempts and a live
`lockUntil` timestamp still authenticates successfully with the correct
password (the claim requires a LockedError), and a failed attempt leaves
the store — in particular `loginAttempts` — completely unchanged. -/
theorem employee_lockout_not_enforced :
    (employeeLogin (fun s => s) 1000
      [{ employeeId := "E1", username := "alice", fullName := "Alice A",
         passwordHash := "correct-pw", passwordSalt := "s",
         loginAttempts := 5, lockUntil := some 1800000 }] "alice" "wrong").2
      = [{ employeeId := "E1", username := "alice", fullName := "Alice A",
           passwordHash := "correct-pw", passwordSalt := "s",
           loginAttempts := 5, lockUntil := some 1800000 }] ∧
    employeeLogin (fun s => s) 1000
      [{ employeeId := "E1", username := "alice", fullName := "Alice A",
         passwordHash := "correct-pw", passwordSalt := "s",
         loginAttempts := 5, lockUntil := some 1800000 }] "alice" "correct-pw"
      = (.success "E1",
         [{ employeeId := "E1", username := "alice", fullName := "Alice A",
            passwordHash := "correct-pw", passwordSalt := "s",
            loginAttempts := 5, lockUntil := some 1800000,
            lastLoginDate := some 1000 }]) := by
  decide

/-- C10: an inactive employee with fully correct credentials receives
exactly the same generic Invalid-credentials response as a nonexistent
username — the `isActive: true` filter hides the account before the
password is ever compared, and no account-disabled signal exists. -/
theorem inactive_employee_generic_401 (bc : String → String) (now : Nat)
    (db : List Employee) (e : Employee) (uname pw ghost : String)
    (hu : uname ≠ "") (hp : pw ≠ "") (hg : ghost ≠ "")
    (he : e ∈ db) (hinact : e.isActive = false)
    (huser : e.username = jsTrim uname)
    (hcred : bc pw = e.passwordHash)
    (hnoactive : ∀ e' ∈ db, e'.username = jsTrim uname → e'.isActive = false)
    (hghost : ∀ e' ∈ db, e'.username ≠ jsTrim ghost) :
    employeeLogin bc now db uname pw = (.invalidCredentials, db) ∧
    employeeLogin bc now db ghost pw = (.invalidCredentials, db) := by
  constructor
  · have hfind : findEmployee db uname = none := by
      rw [findEmployee, List.find?_eq_none]
      intro x hx
      simp only [Bool.and_eq_true, beq_iff_eq, not_and]
      intro hxu
      simpa using hnoactive x hx hxu
    simp [employeeLogin, hu, hp, hfind]
  · have hfind : findEmployee db ghost = none := by
      rw [findEmployee, List.find?_eq_none]
      intro x hx
      simp only [Bool.and_eq_true, beq_iff_eq, not_and]
      intro hxu
      exact absurd hxu (hghost x hx)
    simp [employeeLogin, hg, hp, hfind]

/-- C10 witness: a concrete one-employee store where the only account
matching the username is inactive and the password is correct, and a
username matching no account. -/
theorem inactive_employee_generic_401_witness :
    employeeLogin (fun s => s) 7
      [{ employeeId := "E2", username := "bob", fullName := "Bob B",
         passwordHash := "pass1", passwordSalt := "s", isActive := false }]
      "bob" "pass1"
      = (.invalidCredentials,
         [{ employeeId := "E2", username := "bob", fullName := "Bob B",
            passwordHash := "pass1", passwordSalt := "s", isActive := false }]) ∧
    employeeLogin (fun s => s) 7
      [{ employeeId := "E2", username := "bob", fullName := "Bob B",
         passwordHash := "pass1", passwordSalt := "s", isActive := false }]
      "carol" "pass1"
      = (.invalidCredentials,
         [{ employeeId := "E2", username := "bob", fullName := "Bob B",
            passwordHash := "pass1", passwordSalt := "s", isActive := false }]) :=
  inactive_employee_generic_401 (fun s => s) 7
    [{ employeeId := "E2", username := "bob", fullName := "Bob B",
       passwordHash := "pass1", passwordSalt := "s", isActive := false }]
    { employeeId := "E2", username := "bob", fullName := "Bob B",
      passwordHash := "pass1", passwordSalt := "s", isActive := false }
    "bob" "pass1" "carol"
    (by decide) (by decide) (by decide)
    (by decide) (by decide) (by decide) (by decide)
    (by decide) (by decide)

end Banking
